import Mathlib

/-!
Verification of the cdef-cohort-generation health-data harmonization and
SCD-classification engine, shallowly embedded in Lean 4.

Column values of the polars frames are modelled as `Option` (null = `none`);
polars' three-valued boolean logic is modelled by `Option Bool` with Kleene
connectives; dates in the SCD frames are modelled as `Nat` encoded
`yyyy*10000 + mm*100 + dd`, which is order-isomorphic to the calendar order
polars uses for `pl.Date` minima.
-/

namespace Cdef

/-- Kleene three-valued OR, the semantics of polars `|` on nullable booleans:
true dominates, null propagates otherwise. -/
def kor : Option Bool → Option Bool → Option Bool
  | some true, _ => some true
  | _, some true => some true
  | some false, b => b
  | none, _ => none

/-- Kleene three-valued AND, the semantics of polars `&` on nullable booleans. -/
def kand : Option Bool → Option Bool → Option Bool
  | some false, _ => some false
  | _, some false => some false
  | some true, b => b
  | none, _ => none

/-- polars `max` aggregation over a nullable boolean column: nulls are ignored,
an all-null (or empty) group yields null.  On booleans this is logical OR. -/
def aggMaxBool (l : List (Option Bool)) : Option Bool :=
  l.foldr
    (fun x acc =>
      match x, acc with
      | none, a => a
      | some b, none => some b
      | some b, some a => some (b || a))
    none

/-- polars `min` aggregation over a nullable integer/date column: nulls are
ignored, an all-null (or empty) group yields null. -/
def aggMinNat (l : List (Option Nat)) : Option Nat :=
  l.foldr
    (fun x acc =>
      match x, acc with
      | none, a => a
      | some d, none => some d
      | some d, some m => some (Nat.min d m))
    none

/-- Byte-lexicographic string order used by polars string comparison
(for well-formed UTF-8, byte order coincides with code-point order, which is
what we compare on `Char` lists; the diagnosis codes are ASCII). -/
def charListLe : List Char → List Char → Bool
  | [], _ => true
  | _ :: _, [] => false
  | a :: as, b :: bs =>
    if a = b then charListLe as bs
    else decide (a < b)

/-- The relation `strLe s t` is polars `s <= t` on strings. -/
def strLe (s t : String) : Bool :=
  charListLe s.toList t.toList

/-- ASCII uppercase of one character (the arithmetic of `Char.toUpper`,
restated so that it reduces in the kernel; the diagnosis codes are ASCII,
where polars' Unicode uppercasing agrees with this). -/
def upperChar (c : Char) : Char :=
  if 'a' ≤ c ∧ c ≤ 'z' then Char.ofNat (c.toNat - 32) else c

/-- polars `str.to_uppercase().str.slice(off, len)` on a non-null value:
character-based substring of the uppercased string (shorter when the string
runs out). -/
def upSlice (s : String) (off len : Nat) : String :=
  String.mk (((s.data.map upperChar).drop off).take len)

/-- Lifted `is_in`: polars `expr.is_in(list)` on a nullable string, null in →
null out. -/
def oIsIn (v : Option String) (off len : Nat) (codes : List String) : Option Bool :=
  v.map (fun s => codes.contains (upSlice s off len))

/-- Lifted inclusive range test `(expr >= lo) & (expr <= hi)` on the sliced,
uppercased code, null in → null out (matching the Kleene `&` of two null
comparisons). -/
def oRange (v : Option String) (off len : Nat) (lo hi : String) : Option Bool :=
  kand (v.map fun s => strLe lo (upSlice s off len))
       (v.map fun s => strLe (upSlice s off len) hi)

/-! ## The SCD code lists of `cdef_cohort_generation/utils/icd.py` -/

/-- The curated chapter/category code list of `apply_scd_algorithm`
(`cdef_cohort_generation/utils/icd.py`; source name `icd_pre` + `fixes`,
spelled `icdChapterCodes` here). -/
def icdChapterCodes : List String :=
  ["C", "D61", "D76", "D8", "E10", "E25", "E7", "G12", "G31", "G37", "G40",
   "G60", "G70", "G71", "G73", "G80", "G81", "G82", "G91", "G94", "I12",
   "I27", "I3", "I4", "I5", "J44", "J84", "K21", "K5", "K7", "K90", "M3",
   "N0", "N13", "N18", "N19", "N25", "N26", "N27", "P27", "P57", "P91",
   "Q0", "Q2", "Q3", "Q4", "Q6", "Q79", "Q86", "Q87", "Q9"]

/-- The curated fine-grained code list `specific_codes` of
`apply_scd_algorithm` (`cdef_cohort_generation/utils/icd.py`). -/
def specificCodes : List String :=
  ["D610", "D613", "D618", "D619", "D762", "E730", "G310", "G318", "G319",
   "G702", "G710", "G711", "G712", "G713", "G736", "G811", "G821", "G824",
   "G941", "J448", "P910", "P911", "P912", "Q790", "Q792", "Q793", "Q860"]

/-! ## Row model for the harmonized contact frame -/

/-- A row of the harmonized health-contact frame, as consumed by
`apply_scd_algorithm` in `cdef_cohort_generation/utils/icd.py`:
`patient_id`, the two diagnosis columns, and `contact_date`. -/
structure ContactRow where
  patient_id : String
  primary_diagnosis : Option String
  diagnosis : Option String
  contact_date : Option Nat
  deriving Repr, DecidableEq

/-- The per-diagnosis-column disjunct block of `apply_scd_algorithm`
(`cdef_cohort_generation/utils/icd.py` lines 161–184), in source order:
`slice(1,4).is_in(icd_pre…) | (slice(1,4) in [E74,E84]) |
slice(1,5).is_in(specific_codes) | (slice(1,5) in [P941,P949])`. -/
def icdColCond (v : Option String) : Option Bool :=
  kor (kor (kor (oIsIn v 1 4 icdChapterCodes)
                (oRange v 1 4 "E74" "E84"))
           (oIsIn v 1 5 specificCodes))
      (oRange v 1 5 "P941" "P949")

/-- The row-level `is_scd` expression of `apply_scd_algorithm`
(`cdef_cohort_generation/utils/icd.py`): the Kleene OR of the
`primary_diagnosis` block and the `diagnosis` block. -/
def icdRowIsScd (r : ContactRow) : Option Bool :=
  kor (icdColCond r.primary_diagnosis) (icdColCond r.diagnosis)

/-! ## The documented classification predicate (for claim C1)

The following definition is written from the specification's words, to be
compared with the source-derived `icdRowIsScd`:
a diagnosis code, uppercased and with its leading type character stripped,
matches iff its 4-character prefix is a member of the curated
chapter/category code set, or its 5-character prefix is a member of the
curated fine-grained code set, or its 4-character prefix lies in the
inclusive range E74–E84, or its 5-character prefix lies in the inclusive
range P941–P949. -/

/-- Spec-side predicate of claim C1 (see the section comment above). -/
def specDocMatch (code : String) : Bool :=
  let c := String.mk ((code.data.map upperChar).drop 1)
  let p4 := String.mk (c.data.take 4)
  let p5 := String.mk (c.data.take 5)
  icdChapterCodes.contains p4 || specificCodes.contains p5 ||
    (strLe "E74" p4 && strLe p4 "E84") || (strLe "P941" p5 && strLe p5 "P949")

lemma kor_eq_some_true : ∀ a b : Option Bool,
    kor a b = some true ↔ a = some true ∨ b = some true := by decide

lemma kor_some_some : ∀ x y : Bool, kor (some x) (some y) = some (x || y) := by decide

lemma kand_some_some : ∀ x y : Bool, kand (some x) (some y) = some (x && y) := by decide

lemma icdColCond_none : icdColCond none = none := by rfl

lemma icdColCond_eq_some_true (v : Option String) :
    icdColCond v = some true ↔ ∃ s, v = some s ∧ specDocMatch s = true := by
  rcases v with _ | s
  · simp [icdColCond_none]
  · simp only [icdColCond, oIsIn, oRange, Option.map_some', kand_some_some,
      kor_some_some, Option.some.injEq, specDocMatch, upSlice, String.toList,
      Bool.or_eq_true, Bool.and_eq_true]
    constructor
    · rintro (((h | h) | h) | h)
      · exact ⟨s, rfl, Or.inl (Or.inl (Or.inl h))⟩
      · exact ⟨s, rfl, Or.inl (Or.inr h)⟩
      · exact ⟨s, rfl, Or.inl (Or.inl (Or.inr h))⟩
      · exact ⟨s, rfl, Or.inr h⟩
    · rintro ⟨s1, rfl, (((h | h) | h) | h)⟩
      · exact Or.inl (Or.inl (Or.inl h))
      · exact Or.inl (Or.inr h)
      · exact Or.inl (Or.inl (Or.inr h))
      · exact Or.inr h

/-- Claim C1. For every contact row, `apply_scd_algorithm`
(`cdef_cohort_generation/utils/icd.py`) sets `is_scd` to true if and only if
at least one of the configured diagnosis columns (`primary_diagnosis`,
`diagnosis`) holds a code that, after uppercasing and stripping the leading
type character, matches the documented predicate: its 4-character prefix is a
member of the curated chapter/category code set, or its 5-character prefix is
a member of the curated fine-grained code set, or its 4-character prefix lies
in the inclusive range E74–E84, or its 5-character prefix lies in the
inclusive range P941–P949 (`specDocMatch`, written from the spec's words;
membership is exact membership in the curated lists). -/
theorem scd_is_scd_iff_documented_predicate (r : ContactRow) :
    icdRowIsScd r = some true ↔
      ∃ v ∈ [r.primary_diagnosis, r.diagnosis], ∃ s, v = some s ∧ specDocMatch s = true := by
  simp only [icdRowIsScd, kor_eq_some_true, icdColCond_eq_some_true,
    List.mem_cons, List.mem_singleton]
  constructor
  · rintro (⟨s, hs, hm⟩ | ⟨s, hs, hm⟩)
    · exact ⟨r.primary_diagnosis, Or.inl rfl, s, hs, hm⟩
    · exact ⟨r.diagnosis, Or.inr (Or.inl rfl), s, hs, hm⟩
  · rintro ⟨v, (rfl | rfl | h), s, hs, hm⟩
    · exact Or.inl ⟨s, hs, hm⟩
    · exact Or.inr ⟨s, hs, hm⟩
    · cases h

/-! ## The service SCD classifier (`cdef_cohort/services/cohort_service.py`) -/

/-- The `scd_codes` list of `CohortService._apply_scd_algorithm`
(`cdef_cohort/services/cohort_service.py` lines 110–333). -/
def scdCodes : List String :=
  ["D55", "D56", "D57", "D58", "D60", "D61", "D64", "D66", "D67", "D68",
   "D69", "D70", "D71", "D72", "D73", "D76", "D80", "D81", "D82", "D83",
   "D84", "D86", "D89", "E22", "E23", "E24", "E25", "E26", "E27", "E31",
   "E34", "E70", "E71", "E72", "E73", "E74", "E75", "E76", "E77", "E78",
   "E79", "E80", "E83", "E84", "E85", "E88", "F84", "G11", "G12", "G13",
   "G23", "G24", "G25", "G31", "G32", "G36", "G37", "G40", "G41", "G60",
   "G70", "G71", "G72", "G73", "G80", "G81", "G82", "G83", "G90", "G91",
   "G93", "I27", "I42", "I43", "I50", "I61", "I63", "I69", "I70", "I71",
   "I72", "I73", "I74", "I77", "I78", "I79", "J41", "J42", "J43", "J44",
   "J45", "J47", "J60", "J61", "J62", "J63", "J64", "J65", "J66", "J67",
   "J68", "J69", "J70", "J84", "J98", "K50", "K51", "K73", "K74", "K86",
   "K87", "K90", "M05", "M06", "M07", "M08", "M09", "M30", "M31", "M32",
   "M33", "M34", "M35", "M40", "M41", "M42", "M43", "M45", "M46", "N01",
   "N03", "N04", "N07", "N08", "N11", "N12", "N13", "N14", "N15", "N16",
   "N18", "N19", "N20", "N21", "N22", "N23", "N25", "N26", "N27", "N28",
   "N29", "P27", "Q01", "Q02", "Q03", "Q04", "Q05", "Q06", "Q07", "Q20",
   "Q21", "Q22", "Q23", "Q24", "Q25", "Q26", "Q27", "Q28", "Q30", "Q31",
   "Q32", "Q33", "Q34", "Q35", "Q36", "Q37", "Q38", "Q39", "Q40", "Q41",
   "Q42", "Q43", "Q44", "Q45", "Q60", "Q61", "Q62", "Q63", "Q64", "Q65",
   "Q66", "Q67", "Q68", "Q69", "Q70", "Q71", "Q72", "Q73", "Q74", "Q75",
   "Q76", "Q77", "Q78", "Q79", "Q80", "Q81", "Q82", "Q83", "Q84", "Q85",
   "Q86", "Q87", "Q89", "Q90", "Q91", "Q92", "Q93", "Q95", "Q96", "Q97",
   "Q98", "Q99"]

/-- A row of the combined health frame as consumed by
`CohortService._apply_scd_algorithm`: the patient-id column, the values of
the configured diagnosis columns (in configured order), and the date
column. -/
structure ServiceRow where
  pid : String
  diagnoses : List (Option String)
  date : Option Nat
  deriving Repr, DecidableEq

/-- The per-diagnosis-column condition `scd_condition` of
`_apply_scd_algorithm` (`cohort_service.py` lines 338–349), in source order:
`slice(1,4).is_in(scd_codes) | slice(1,5).is_in(scd_codes) |
(slice(1,4) between E74 and E84) | (slice(1,5) between P941 and P949)`. -/
def serviceColCond (v : Option String) : Option Bool :=
  kor (kor (kor (oIsIn v 1 4 scdCodes)
                (oIsIn v 1 5 scdCodes))
           (oRange v 1 4 "E74" "E84"))
      (oRange v 1 5 "P941" "P949")

/-- Model of `pl.any_horizontal` over the per-column conditions: Kleene OR folded over
the list (true if any condition is true, null if some condition is null and
none is true, false otherwise). -/
def anyHorizontal (l : List (Option Bool)) : Option Bool :=
  l.foldl kor (some false)

/-- Row-level `is_scd` of `_apply_scd_algorithm` (`cohort_service.py`
line 353): `pl.any_horizontal(*scd_conditions)`. -/
def serviceRowIsScd (r : ServiceRow) : Option Bool :=
  anyHorizontal (r.diagnoses.map serviceColCond)

/-- Row-level `first_scd_date` of `_apply_scd_algorithm` (`cohort_service.py`
line 358): `pl.when(is_scd_expr).then(pl.col(date_col)).otherwise(None)` —
the row's own date when the condition is true, null when it is false or
null. -/
def serviceRowFirstDate (r : ServiceRow) : Option Nat :=
  if serviceRowIsScd r = some true then r.date else none

/-- The rows of one patient, in frame order. -/
def rowsOf (rows : List ServiceRow) (pid : String) : List ServiceRow :=
  rows.filter (fun r => r.pid = pid)

/-- Patient-level aggregation of `_apply_scd_algorithm` (`cohort_service.py`
lines 363–368): `group_by(id_col).agg(is_scd.max(), first_scd_date.min())`
(polars `max`/`min` ignore nulls). -/
def serviceAgg (rows : List ServiceRow) (pid : String) : Option Bool × Option Nat :=
  (aggMaxBool ((rowsOf rows pid).map serviceRowIsScd),
   aggMinNat ((rowsOf rows pid).map serviceRowFirstDate))

/-! ## The generation pipeline (`utils/icd.py` + `cdef_cohort_generation/main.py`) -/

/-- Row-level `first_scd_date` *when-value* of `apply_scd_algorithm`
(`cdef_cohort_generation/utils/icd.py`):
`pl.when(pl.col("is_scd")).then(pl.col("contact_date")).otherwise(None)`. -/
def icdWhenDate (r : ContactRow) : Option Nat :=
  if icdRowIsScd r = some true then r.contact_date else none

/-- The rows of one patient, in frame order. -/
def icdRowsOf (rows : List ContactRow) (pid : String) : List ContactRow :=
  rows.filter (fun r => r.patient_id = pid)

/-- The `.first().over("patient_id")` window of `apply_scd_algorithm`
(`utils/icd.py` lines 186–193): every row of a patient receives the *first*
row's when-value (null when the window is empty). -/
def icdWindowFirstDate (rows : List ContactRow) (pid : String) : Option Nat :=
  match icdRowsOf rows pid with
  | [] => none
  | r :: _ => icdWhenDate r

/-- Patient-level aggregation of `identify_severe_chronic_disease`
(`cdef_cohort_generation/main.py` lines 89–94) applied to the output of
`apply_scd_algorithm`: `group_by("patient_id").agg(is_scd.max(),
first_scd_date.min())`; in the input every row of a patient carries the
window value `icdWindowFirstDate` as its `first_scd_date`. -/
def genAgg (rows : List ContactRow) (pid : String) : Option Bool × Option Nat :=
  (aggMaxBool ((icdRowsOf rows pid).map icdRowIsScd),
   aggMinNat ((icdRowsOf rows pid).map (fun _ => icdWindowFirstDate rows pid)))

/-! ## Aggregation lemmas -/

lemma aggMinNat_eq_min? (l : List (Option Nat)) :
    aggMinNat l = (l.filterMap id).min? := by
  induction l with
  | nil => rfl
  | cons x xs ih =>
    cases x with
    | none =>
      rw [show List.filterMap id (none :: xs) = List.filterMap id xs from by simp]
      simpa [aggMinNat] using ih
    | some d =>
      rw [show List.filterMap id (some d :: xs) = d :: List.filterMap id xs from by simp,
        List.min?_cons]
      simp only [aggMinNat, List.foldr_cons] at ih ⊢
      rw [ih]
      cases h : (List.filterMap id xs).min? <;> simp

lemma aggMaxBool_eq_some_true_of_mem {l : List (Option Bool)}
    (h : some true ∈ l) : aggMaxBool l = some true := by
  induction l with
  | nil => cases h
  | cons x xs ih =>
    rcases List.mem_cons.1 h with rfl | hmem
    · simp only [aggMaxBool, List.foldr_cons]
      cases hx : xs.foldr _ none with
      | none => rfl
      | some a => simp
    · have := ih hmem
      simp only [aggMaxBool, List.foldr_cons] at this ⊢
      rw [this]
      cases x with
      | none => rfl
      | some b => simp

lemma aggMinNat_all_none {l : List (Option Nat)}
    (h : ∀ x ∈ l, x = none) : aggMinNat l = none := by
  induction l with
  | nil => rfl
  | cons x xs ih =>
    have hx := h x (List.mem_cons_self x xs)
    subst hx
    simp only [aggMinNat, List.foldr_cons]
    exact ih (fun y hy => h y (List.mem_cons_of_mem _ hy))

/-! ## Claims C2, C3, C9 -/

/-- Claim C2, counterexample. The claim fails on `apply_scd_algorithm`
(`cdef_cohort_generation/utils/icd.py` lines 186–193): the patient has one
qualifying row with a date (`DE750`, in the E74–E84 band, dated
2015-06-01), so the claim demands a patient-level `first_scd_date` of
2015-06-01, but the `.first().over("patient_id")` window assigns every row
the *first* row's when-value (null, since the first row does not qualify),
and the subsequent min-aggregation of `main.py` yields null. -/
theorem gen_first_scd_date_not_min :
    icdRowIsScd ⟨"0101900001", some "DE750", some "Z001", some 20150601⟩ = some true ∧
    genAgg [⟨"0101900001", some "Z000", some "Z001", some 20140101⟩,
            ⟨"0101900001", some "DE750", some "Z001", some 20150601⟩] "0101900001"
      = (some true, none) ∧
    genAgg [⟨"0101900001", some "Z000", some "Z001", some 20140101⟩,
            ⟨"0101900001", some "DE750", some "Z001", some 20150601⟩] "0101900001"
      ≠ (some true, some 20150601) := by decide

/-- Claim C2, amended. In the service implementation
(`CohortService._apply_scd_algorithm`, `cohort_service.py` lines 355–368) the
claim holds: row-level `first_scd_date` is the row's own date when the row's
`is_scd` is true and null otherwise, and the patient-level value is the
minimum of the qualifying rows' dates (null when no qualifying row has a
date); the generation-utils implementation (`utils/icd.py`) instead
propagates the first row's when-value over the patient window (see the
counterexample). -/
theorem service_first_scd_date_is_min :
    (∀ r : ServiceRow, serviceRowIsScd r = some true → serviceRowFirstDate r = r.date) ∧
    (∀ r : ServiceRow, serviceRowIsScd r ≠ some true → serviceRowFirstDate r = none) ∧
    (∀ (rows : List ServiceRow) (pid : String),
      (serviceAgg rows pid).2 =
        ((rowsOf rows pid).filterMap
          (fun r => if serviceRowIsScd r = some true then r.date else none)).min?) := by
  refine ⟨fun r h => by simp [serviceRowFirstDate, h],
          fun r h => by simp [serviceRowFirstDate, h],
          fun rows pid => ?_⟩
  show aggMinNat ((rowsOf rows pid).map serviceRowFirstDate) = _
  rw [aggMinNat_eq_min?, List.filterMap_map]
  rfl

/-- Witness for `service_first_scd_date_is_min` at concrete rows:
`DD55` qualifies (4-char slice `D55` is in `scd_codes`), `Z000` does not. -/
theorem service_first_scd_date_is_min_witness :
    serviceRowFirstDate ⟨"p", [some "DD55"], some 5⟩ = some 5 ∧
    serviceRowFirstDate ⟨"p", [some "Z000"], some 7⟩ = none :=
  ⟨service_first_scd_date_is_min.1 ⟨"p", [some "DD55"], some 5⟩ (by decide),
   service_first_scd_date_is_min.2.1 ⟨"p", [some "Z000"], some 7⟩ (by decide)⟩

/-- Claim C3 (code bug). The end-to-end scenario of the spec — patient
`"0101900001"` with contacts (`DC501`, 2015-06-01) and (`Z000`, 2014-01-01) —
does *not* produce `is_scd = true, first_scd_date = 2015-06-01` on either
classifier: the 4-character slice `C501` is compared by exact `is_in`
membership against the curated lists (which hold 1–3 character chapter
entries such as `C`, evidently intended as prefixes), so `DC501` never
matches; both pipelines return a null `is_scd` (Kleene OR with the null
second diagnosis column) and a null `first_scd_date`. -/
theorem scenario1_dc501_not_flagged :
    serviceAgg [⟨"0101900001", [some "DC501", none, none], some 20150601⟩,
                ⟨"0101900001", [some "Z000", none, none], some 20140101⟩] "0101900001"
        = (none, none) ∧
    genAgg [⟨"0101900001", some "DC501", none, some 20150601⟩,
            ⟨"0101900001", some "Z000", none, some 20140101⟩] "0101900001"
        = (none, none) := by decide

/-- Claim C9. In every patient-level SCD result row, `is_scd = false` implies
`first_scd_date` is null: (1) for the generation pipeline
(`apply_scd_algorithm` of `utils/icd.py` followed by the patient-level
aggregation of `main.py`); (2) the final re-aggregation of
`cdef_cohort_builder/main.py` lines 108–117 preserves the invariant: if every
input patient-level row whose `is_scd` is not true has a null date, then a
false aggregated `is_scd` forces a null aggregated `first_scd_date`. -/
theorem scd_false_implies_null_first_date :
    (∀ (rows : List ContactRow) (pid : String),
        (genAgg rows pid).1 = some false → (genAgg rows pid).2 = none) ∧
    (∀ l : List (Option Bool × Option Nat),
        (∀ p ∈ l, p.1 ≠ some true → p.2 = none) →
        aggMaxBool (l.map Prod.fst) = some false →
        aggMinNat (l.map Prod.snd) = none) := by
  constructor
  · intro rows pid h1
    simp only [genAgg] at h1 ⊢
    cases hgrp : icdRowsOf rows pid with
    | nil => simp [hgrp, aggMinNat]
    | cons r rest =>
      have hr : icdRowIsScd r ≠ some true := by
        intro habs
        have hmem : some true ∈ (icdRowsOf rows pid).map icdRowIsScd := by
          rw [hgrp]
          exact List.mem_map.2 ⟨r, List.mem_cons_self r rest, habs⟩
        rw [aggMaxBool_eq_some_true_of_mem hmem] at h1
        cases h1
      have hw : icdWindowFirstDate rows pid = none := by
        simp [icdWindowFirstDate, hgrp, icdWhenDate, hr]
      refine aggMinNat_all_none ?_
      intro x hx
      rcases List.mem_map.1 hx with ⟨r1, _, rfl⟩
      exact hw
  · intro l hinv hmax
    refine aggMinNat_all_none ?_
    intro x hx
    rcases List.mem_map.1 hx with ⟨p, hp, rfl⟩
    refine hinv p hp ?_
    intro habs
    rw [aggMaxBool_eq_some_true_of_mem (List.mem_map.2 ⟨p, hp, habs⟩)] at hmax
    cases hmax

/-- Witness for `scd_false_implies_null_first_date` at a one-row patient whose
single contact does not qualify. -/
theorem scd_false_implies_null_first_date_witness :
    (genAgg [⟨"p", some "Z000", some "Z001", some 7⟩] "p").1 = some false ∧
    (genAgg [⟨"p", some "Z000", some "Z001", some 7⟩] "p").2 = none :=
  ⟨by decide,
   scd_false_implies_null_first_date.1 [⟨"p", some "Z000", some "Z001", some 7⟩] "p"
     (by decide)⟩

/-! ## DateNormalizer: `parse_dates` of `cdef_cohort_generation/utils.py`

`parse_dates` builds `pl.coalesce` over eleven `str.strptime(pl.Date, fmt,
strict=False)` attempts; each attempt is chrono-style `strptime` on the whole
string (null on failure instead of raising, because `strict=False`).  We model
chrono's parser: a numeric item skips leading whitespace and reads greedily at
most its field width in digits (year: 4, or unbounded after an explicit sign;
all other fields: 2); a literal matches exactly; a whitespace item in the
format skips any amount of input whitespace; month/weekday names are
case-insensitive three-letter abbreviations; the whole input must be
consumed; the extracted fields must form a valid proleptic-Gregorian date
(hour is range-checked at parse time, minute/second widths only, since the
target type is a date); `%c` additionally requires the parsed weekday to
match the date's actual weekday. -/

/-- A calendar date. -/
structure PDate where
  year : Int
  month : Nat
  day : Nat
  deriving Repr, DecidableEq

/-- Proleptic-Gregorian leap year (`Int.emod` keeps this correct for
non-positive years). -/
def isLeap (y : Int) : Bool :=
  (y.emod 4 = 0 && y.emod 100 ≠ 0) || y.emod 400 = 0

def daysInMonth (y : Int) (m : Nat) : Nat :=
  if m = 2 then (if isLeap y then 29 else 28)
  else if m = 4 ∨ m = 6 ∨ m = 9 ∨ m = 11 then 30
  else 31

def validYMD (y : Int) (m d : Nat) : Bool :=
  1 ≤ m && m ≤ 12 && 1 ≤ d && d ≤ daysInMonth y m

/-- chrono `Parsed::to_naive_date`: the extracted fields must form a real
calendar date. -/
def mkDate (y : Int) (m d : Nat) : Option PDate :=
  if validYMD y m d then some ⟨y, m, d⟩ else none

/-- Days from Monday (0 = Monday … 6 = Sunday) of a proleptic-Gregorian
date, by Zeller's congruence (Euclidean division so that non-positive years
are handled). -/
def weekdayNum (y : Int) (m d : Nat) : Nat :=
  let mm : Nat := if m ≤ 2 then m + 12 else m
  let yy : Int := if m ≤ 2 then y - 1 else y
  let K : Int := yy.emod 100
  let J : Int := yy.ediv 100
  let h : Int :=
    ((d : Int) + ((13 * (mm + 1)) / 5 : Nat) + K + K.ediv 4 + J.ediv 4 + 5 * J).emod 7
  ((h + 5).emod 7).toNat

/-- Skip input whitespace (chrono trims whitespace before numeric items and
for whitespace items in the format). -/
def skipWs : List Char → List Char
  | [] => []
  | c :: cs => if c = ' ' ∨ c = '\t' ∨ c = '\n' ∨ c = '\r' then skipWs cs else c :: cs

/-- Greedily take at most `maxD` leading digits. -/
def takeDigits : Nat → List Char → (List Char × List Char)
  | 0, cs => ([], cs)
  | _, [] => ([], [])
  | n + 1, c :: cs =>
    if c.isDigit then
      let p := takeDigits n cs
      (c :: p.1, p.2)
    else ([], c :: cs)

def digitsVal (ds : List Char) : Nat :=
  ds.foldl (fun a c => a * 10 + (c.toNat - 48)) 0

/-- chrono `scan::number(s, 1, maxD)`: at least one, at most `maxD` digits,
greedy. -/
def parseDigits (maxD : Nat) (cs : List Char) : Option (Nat × List Char) :=
  match takeDigits maxD cs with
  | ([], _) => none
  | (ds, rest) => some (digitsVal ds, rest)

/-- An unsigned numeric item of width `maxD` (leading whitespace skipped). -/
def parseNum (maxD : Nat) (cs : List Char) : Option (Nat × List Char) :=
  parseDigits maxD (skipWs cs)

/-- The signed `%Y` item: an explicit sign lifts the 4-digit width bound. -/
def parseYear (cs0 : List Char) : Option (Int × List Char) :=
  match skipWs cs0 with
  | '-' :: rest => (parseDigits rest.length rest).map (fun p => (-(p.1 : Int), p.2))
  | '+' :: rest => (parseDigits rest.length rest).map (fun p => ((p.1 : Int), p.2))
  | cs => (parseDigits 4 cs).map (fun p => ((p.1 : Int), p.2))

/-- A literal format character: must match exactly. -/
def parseLit (c : Char) : List Char → Option (List Char)
  | x :: rest => if x = c then some rest else none
  | [] => none

def monthFromAbbr (w : String) : Option Nat :=
  if w = "JAN" then some 1 else if w = "FEB" then some 2
  else if w = "MAR" then some 3 else if w = "APR" then some 4
  else if w = "MAY" then some 5 else if w = "JUN" then some 6
  else if w = "JUL" then some 7 else if w = "AUG" then some 8
  else if w = "SEP" then some 9 else if w = "OCT" then some 10
  else if w = "NOV" then some 11 else if w = "DEC" then some 12
  else none

/-- The `%b` item: case-insensitive three-letter month abbreviation. -/
def parseMonthName (cs : List Char) : Option (Nat × List Char) :=
  match cs with
  | a :: b :: c :: rest =>
    (monthFromAbbr (String.mk [upperChar a, upperChar b, upperChar c])).map
      (fun m => (m, rest))
  | _ => none

def weekdayFromAbbr (w : String) : Option Nat :=
  if w = "MON" then some 0 else if w = "TUE" then some 1
  else if w = "WED" then some 2 else if w = "THU" then some 3
  else if w = "FRI" then some 4 else if w = "SAT" then some 5
  else if w = "SUN" then some 6
  else none

/-- The `%a` item: case-insensitive three-letter weekday abbreviation,
as days from Monday. -/
def parseWeekdayName (cs : List Char) : Option (Nat × List Char) :=
  match cs with
  | a :: b :: c :: rest =>
    (weekdayFromAbbr (String.mk [upperChar a, upperChar b, upperChar c])).map
      (fun w => (w, rest))
  | _ => none

def guardOpt (b : Bool) : Option Unit :=
  if b then some () else none

/-- The `%H:%M:%S` tail of the datetime formats: the hour is range-checked
when stored (chrono `Parsed::set_hour`); minute and second are only
width-bounded here because the parse target is a date, whose construction
never reads them. -/
def parseHMS (cs : List Char) : Option (List Char) := do
  let (h, cs) ← parseNum 2 cs
  let _ ← guardOpt (h < 24)
  let cs ← parseLit ':' cs
  let (_, cs) ← parseNum 2 cs
  let cs ← parseLit ':' cs
  let (_, cs) ← parseNum 2 cs
  some cs

/-- The whole input must be consumed (chrono returns `TOO_LONG` otherwise). -/
def expectEnd {α : Type} (cs : List Char) (t : α) : Option α :=
  if cs.isEmpty then some t else none

/-- Field extraction for `%Y<sep>%m<sep>%d`. -/
def rawYMD (sep : Char) (cs : List Char) : Option (Int × Nat × Nat) := do
  let (y, cs) ← parseYear cs
  let cs ← parseLit sep cs
  let (m, cs) ← parseNum 2 cs
  let cs ← parseLit sep cs
  let (d, cs) ← parseNum 2 cs
  expectEnd cs (y, m, d)

/-- Field extraction for `%d<sep>%m<sep>%Y`. -/
def rawDMY (sep : Char) (cs : List Char) : Option (Int × Nat × Nat) := do
  let (d, cs) ← parseNum 2 cs
  let cs ← parseLit sep cs
  let (m, cs) ← parseNum 2 cs
  let cs ← parseLit sep cs
  let (y, cs) ← parseYear cs
  expectEnd cs (y, m, d)

/-- Field extraction for `%m<sep>%d<sep>%Y`. -/
def rawMDY (sep : Char) (cs : List Char) : Option (Int × Nat × Nat) := do
  let (m, cs) ← parseNum 2 cs
  let cs ← parseLit sep cs
  let (d, cs) ← parseNum 2 cs
  let cs ← parseLit sep cs
  let (y, cs) ← parseYear cs
  expectEnd cs (y, m, d)

/-- Field extraction for `%Y<sep>%m<sep>%d %H:%M:%S`. -/
def rawYMDTime (sep : Char) (cs : List Char) : Option (Int × Nat × Nat) := do
  let (y, cs) ← parseYear cs
  let cs ← parseLit sep cs
  let (m, cs) ← parseNum 2 cs
  let cs ← parseLit sep cs
  let (d, cs) ← parseNum 2 cs
  let cs ← parseHMS (skipWs cs)
  let _ ← expectEnd cs ()
  some (y, m, d)

/-- Field extraction for `%m/%d/%y` (POSIX two-digit years: 00–68 are the
2000s, 69–99 the 1900s). -/
def rawMDY2 (cs : List Char) : Option (Int × Nat × Nat) := do
  let (m, cs) ← parseNum 2 cs
  let cs ← parseLit '/' cs
  let (d, cs) ← parseNum 2 cs
  let cs ← parseLit '/' cs
  let (yy, cs) ← parseNum 2 cs
  expectEnd cs ((if yy ≤ 68 then 2000 + yy else 1900 + yy : Nat), m, d)

/-- Field extraction for `%d%b%Y` (the LPR3 format, e.g. `01JAN2020`). -/
def rawDMonY (cs : List Char) : Option (Int × Nat × Nat) := do
  let (d, cs) ← parseNum 2 cs
  let (m, cs) ← parseMonthName cs
  let (y, cs) ← parseYear cs
  expectEnd cs (y, m, d)

/-- Field extraction for `%c` = `%a %b %e %T %Y` (chrono's ctime layout);
also yields the parsed weekday, checked against the date downstream. -/
def rawCtime (cs : List Char) : Option (Nat × (Int × Nat × Nat)) := do
  let (w, cs) ← parseWeekdayName cs
  let cs := skipWs cs
  let (m, cs) ← parseMonthName cs
  let cs := skipWs cs
  let (d, cs) ← parseNum 2 cs
  let cs ← parseHMS (skipWs cs)
  let (y, cs) ← parseYear cs
  expectEnd cs (w, ((y : Int), m, d))

/-- Turn a field extractor into a date parser: fields are validated by
`mkDate` (chrono `to_naive_date`). -/
def mkDateFrom (g : List Char → Option (Int × Nat × Nat)) (cs : List Char) :
    Option PDate :=
  (g cs).bind (fun t => mkDate t.1 t.2.1 t.2.2)

/-- As `mkDateFrom`, plus chrono's consistency check of a parsed weekday
against the constructed date. -/
def mkDateFromWd (g : List Char → Option (Nat × (Int × Nat × Nat)))
    (cs : List Char) : Option PDate :=
  (g cs).bind (fun t =>
    (mkDate t.2.1 t.2.2.1 t.2.2.2).bind (fun dt =>
      if weekdayNum dt.year dt.month dt.day = t.1 then some dt else none))

/-- Format 1, `%Y/%m/%d`. -/
def pYMDslash : List Char → Option PDate := mkDateFrom (rawYMD '/')

/-- Format 2, `%d/%m/%Y`. -/
def pDMYslash : List Char → Option PDate := mkDateFrom (rawDMY '/')

/-- Format 3, `%m/%d/%Y`. -/
def pMDYslash : List Char → Option PDate := mkDateFrom (rawMDY '/')

/-- Format 4, `%Y/%m/%d %H:%M:%S`. -/
def pYMDslashTime : List Char → Option PDate := mkDateFrom (rawYMDTime '/')

/-- Format 5, `%m/%d/%y`. -/
def pMDY2slash : List Char → Option PDate := mkDateFrom rawMDY2

/-- Format 6, `%d%b%Y`. -/
def pDMonY : List Char → Option PDate := mkDateFrom rawDMonY

/-- Format 7, `%Y-%m-%d`. -/
def pYMDdash : List Char → Option PDate := mkDateFrom (rawYMD '-')

/-- Format 8, `%d-%m-%Y`. -/
def pDMYdash : List Char → Option PDate := mkDateFrom (rawDMY '-')

/-- Format 9, `%m-%d-%Y`. -/
def pMDYdash : List Char → Option PDate := mkDateFrom (rawMDY '-')

/-- Format 10, `%Y-%m-%d %H:%M:%S`. -/
def pYMDdashTime : List Char → Option PDate := mkDateFrom (rawYMDTime '-')

/-- Format 11, `%c` (the locale representation). -/
def pLocale : List Char → Option PDate := mkDateFromWd rawCtime

/-- The eleven format attempts of `parse_dates`
(`cdef_cohort_generation/utils.py` lines 12–29), in source order. -/
def dateFormats : List (List Char → Option PDate) :=
  [pYMDslash, pDMYslash, pMDYslash, pYMDslashTime, pMDY2slash, pDMonY,
   pYMDdash, pDMYdash, pMDYdash, pYMDdashTime, pLocale]

/-- Model of `pl.coalesce`: the first non-null attempt, per value. -/
def firstSomeF : List (List Char → Option PDate) → List Char → Option PDate
  | [], _ => none
  | f :: fs, cs =>
    match f cs with
    | some v => some v
    | none => firstSomeF fs cs

/-- The function `parse_dates` of `cdef_cohort_generation/utils.py`: coalesce of the
eleven `strptime` attempts. -/
def parse_dates (s : String) : Option PDate :=
  firstSomeF dateFormats s.data

/-! ## Coalesce lemmas and the date-parser claims -/

lemma firstSomeF_get :
    ∀ (l : List (List Char → Option PDate)) (cs : List Char) (i : Nat)
      (hi : i < l.length) (d : PDate),
      (∀ j (hj : j < i), l.get ⟨j, hj.trans hi⟩ cs = none) →
      l.get ⟨i, hi⟩ cs = some d → firstSomeF l cs = some d := by
  intro l
  induction l with
  | nil =>
    intro cs i hi
    exact absurd hi (by simp)
  | cons f fs ih =>
    intro cs i hi d hb hit
    cases i with
    | zero =>
      have hf : f cs = some d := hit
      simp [firstSomeF, hf]
    | succ i =>
      have hf : f cs = none := hb 0 (Nat.succ_pos i)
      simp only [firstSomeF, hf]
      exact ih cs i (by simpa using hi) d (fun j hj => hb (j + 1) (by omega)) hit

lemma firstSomeF_eq_none :
    ∀ (l : List (List Char → Option PDate)) (cs : List Char),
      firstSomeF l cs = none ↔ ∀ f ∈ l, f cs = none := by
  intro l
  induction l with
  | nil => intro cs; simp [firstSomeF]
  | cons f fs ih =>
    intro cs
    cases hf : f cs with
    | some v => simp [firstSomeF, hf, List.forall_mem_cons]
    | none => simp [firstSomeF, hf, List.forall_mem_cons, ih]

lemma firstSomeF_eq_some_mem :
    ∀ (l : List (List Char → Option PDate)) (cs : List Char) (d : PDate),
      firstSomeF l cs = some d → ∃ f ∈ l, f cs = some d := by
  intro l
  induction l with
  | nil => intro cs d h; cases h
  | cons f fs ih =>
    intro cs d h
    cases hf : f cs with
    | some v =>
      simp only [firstSomeF, hf] at h
      exact ⟨f, List.mem_cons_self f fs, by rw [hf, h]⟩
    | none =>
      simp only [firstSomeF, hf] at h
      rcases ih cs d h with ⟨g, hg, hgd⟩
      exact ⟨g, List.mem_cons_of_mem f hg, hgd⟩

lemma mkDate_valid {y : Int} {m d : Nat} {dt : PDate}
    (h : mkDate y m d = some dt) : validYMD dt.year dt.month dt.day = true := by
  unfold mkDate at h
  split at h
  · cases h
    simpa using ‹validYMD y m d = true›
  · cases h

lemma mkDateFrom_valid {g : List Char → Option (Int × Nat × Nat)}
    {cs : List Char} {dt : PDate} (h : mkDateFrom g cs = some dt) :
    validYMD dt.year dt.month dt.day = true := by
  unfold mkDateFrom at h
  rcases Option.bind_eq_some.1 h with ⟨t, _, h2⟩
  exact mkDate_valid h2

lemma mkDateFromWd_valid {g : List Char → Option (Nat × (Int × Nat × Nat))}
    {cs : List Char} {dt : PDate} (h : mkDateFromWd g cs = some dt) :
    validYMD dt.year dt.month dt.day = true := by
  unfold mkDateFromWd at h
  rcases Option.bind_eq_some.1 h with ⟨t, _, h2⟩
  rcases Option.bind_eq_some.1 h2 with ⟨dt0, hmk, h3⟩
  split at h3
  · cases h3
    exact mkDate_valid hmk
  · cases h3

/-- Claim C6. The parser `parse_dates` resolves each value independently as the
earliest-listed format that parses it: whenever all formats before index `i`
fail on a string and format `i` parses it to `d`, the result is `d`; in
particular the ambiguous `"01/02/2020"` (both `DD/MM/YYYY` and `MM/DD/YYYY`
match) parses as February 1, 2020, the interpretation of the earlier-listed
format 2 (`%d/%m/%Y`). -/
theorem parse_dates_first_match_wins :
    (∀ (s : String) (i : Nat) (d : PDate) (hi : i < dateFormats.length),
        (∀ j (hj : j < i), dateFormats.get ⟨j, hj.trans hi⟩ s.data = none) →
        dateFormats.get ⟨i, hi⟩ s.data = some d →
        parse_dates s = some d) ∧
    parse_dates "01/02/2020" = some ⟨2020, 2, 1⟩ := by
  refine ⟨fun s i d hi hb hit => ?_, by decide⟩
  exact firstSomeF_get dateFormats s.data i hi d hb hit

/-- Witness for `parse_dates_first_match_wins`: `"2015-06-01"` is parsed by
format 7 (`%Y-%m-%d`, index 6), all six earlier formats failing on it. -/
theorem parse_dates_first_match_wins_witness :
    parse_dates "2015-06-01" = some ⟨2015, 6, 1⟩ :=
  parse_dates_first_match_wins.1 "2015-06-01" 6 ⟨2015, 6, 1⟩ (by decide)
    (by decide) (by decide)

/-- Claim C7, counterexample. The string `"02/01/2020"` is a valid string of supported
format 3 (`%m/%d/%Y`), whose expected calendar date is February 1, 2020 —
but `parse_dates` returns January 2, 2020 (format 2, `%d/%m/%Y`, is listed
earlier and also matches), so not every string in a supported format yields
the calendar date that format expresses. -/
theorem parse_dates_expected_date_counterexample :
    pMDYslash "02/01/2020".data = some ⟨2020, 2, 1⟩ ∧
    parse_dates "02/01/2020" = some ⟨2020, 1, 2⟩ ∧
    (⟨2020, 1, 2⟩ : PDate) ≠ ⟨2020, 2, 1⟩ := by decide

/-- Claim C7, amended. The parser `parse_dates` is a total deterministic function into an
optional date (`strict=False` `strptime`, so no exception channel exists in
the model): a string yields null exactly when all eleven format attempts
fail — hence any string in a supported format yields a non-null date, namely
the earliest matching format's interpretation (which for ambiguous strings
may differ from a later format's expected date, see the counterexample) —
and every returned date is a valid calendar date. -/
theorem parse_dates_total_and_valid :
    (∀ s : String, parse_dates s = none ↔ ∀ f ∈ dateFormats, f s.data = none) ∧
    (∀ (s : String) (d : PDate), parse_dates s = some d →
        validYMD d.year d.month d.day = true) := by
  constructor
  · intro s
    exact firstSomeF_eq_none dateFormats s.data
  · intro s d h
    rcases firstSomeF_eq_some_mem dateFormats s.data d h with ⟨f, hf, hfd⟩
    simp only [dateFormats, List.mem_cons, List.not_mem_nil, or_false] at hf
    rcases hf with rfl | rfl | rfl | rfl | rfl | rfl | rfl | rfl | rfl | rfl | rfl
    · exact mkDateFrom_valid hfd
    · exact mkDateFrom_valid hfd
    · exact mkDateFrom_valid hfd
    · exact mkDateFrom_valid hfd
    · exact mkDateFrom_valid hfd
    · exact mkDateFrom_valid hfd
    · exact mkDateFrom_valid hfd
    · exact mkDateFrom_valid hfd
    · exact mkDateFrom_valid hfd
    · exact mkDateFrom_valid hfd
    · exact mkDateFromWd_valid hfd

/-- Witness for `parse_dates_total_and_valid`: the unparseable `"nonsense"`
and the format-7 string `"2015-06-01"`. -/
theorem parse_dates_total_and_valid_witness :
    (parse_dates "nonsense" = none ↔ ∀ f ∈ dateFormats, f "nonsense".data = none) ∧
    validYMD (⟨2015, 6, 1⟩ : PDate).year (⟨2015, 6, 1⟩ : PDate).month
      (⟨2015, 6, 1⟩ : PDate).day = true :=
  ⟨parse_dates_total_and_valid.1 "nonsense",
   parse_dates_total_and_valid.2 "2015-06-01" ⟨2015, 6, 1⟩ (by decide)⟩

/-! ## SchemaHarmonizer: `harmonize_health_data` / `rename_and_select`
(`cdef_cohort_generation/utils/icd.py` lines 7–67).

The harmonizer is modelled at schema level: a frame is its list of column
names.  The rename loop iterates the mapping entries in dict insertion
order; every iteration begins with `df.collect_schema()` (the membership
test), where polars resolves the pending plan and raises a duplicate-column
error if a preceding rename produced two columns of one name; the final
resolution happens when the projection's `existing_columns` list is
computed. -/

/-- The `column_mappings` dict of `harmonize_health_data`, in insertion
order. -/
def columnMappings : List (String × String) :=
  [("PNR", "patient_id"), ("CPR", "patient_id"),
   ("C_ADIAG", "primary_diagnosis"), ("C_DIAG", "diagnosis"),
   ("diagnosekode", "diagnosis"), ("aktionsdiagnose", "primary_diagnosis"),
   ("D_INDDTO", "contact_date"), ("D_AMBDTO", "contact_date"),
   ("dato_start", "contact_date"), ("C_DIAGTYPE", "diagnosis_type"),
   ("diagnosetype", "diagnosis_type"), ("RECNUM", "record_id"),
   ("DW_EK_KONTAKT", "contact_id")]

/-- The `essential_columns` list of `harmonize_health_data`. -/
def essentialColumns : List String :=
  ["patient_id", "primary_diagnosis", "diagnosis", "contact_date",
   "diagnosis_type", "record_id", "contact_id"]

/-- One loop iteration's `df.rename({old: new})`, applied when `old` is
among the schema's names. -/
def renameStep (ns : List String) (m : String × String) : List String :=
  if m.1 ∈ ns then ns.map (fun n => if n = m.1 then m.2 else n) else ns

/-- The rename loop of `rename_and_select` at schema level (see the section
comment for where duplicate-column errors surface). -/
def renameLoop : List (String × String) → List String → Except String (List String)
  | [], ns => if ns.Nodup then .ok ns else .error "duplicate column name"
  | m :: rest, ns =>
    if ns.Nodup then renameLoop rest (renameStep ns m)
    else .error "duplicate column name"

/-- The function `rename_and_select` of `harmonize_health_data`: run the rename loop, then
project onto the essential columns that exist. -/
def rename_and_select (ns : List String) : Except String (List String) :=
  (renameLoop columnMappings ns).map
    (fun final => essentialColumns.filter (fun c => final.contains c))

lemma renameLoop_ok :
    ∀ (ms : List (String × String)) (ns r : List String),
      renameLoop ms ns = .ok r → r = ms.foldl renameStep ns := by
  intro ms
  induction ms with
  | nil =>
    intro ns r h
    unfold renameLoop at h
    split at h
    · cases h
      rfl
    · cases h
  | cons m rest ih =>
    intro ns r h
    unfold renameLoop at h
    split at h
    · exact ih (renameStep ns m) r h
    · cases h

lemma mem_renameStep {ns : List String} {m : String × String} {c : String}
    (h : c ∈ renameStep ns m) : c ∈ ns ∨ (c = m.2 ∧ m.1 ∈ ns) := by
  unfold renameStep at h
  split at h
  · rcases List.mem_map.1 h with ⟨x, hx, hxc⟩
    by_cases hxm : x = m.1
    · simp only [hxm, if_pos rfl] at hxc
      exact Or.inr ⟨hxc.symm, ‹m.1 ∈ ns›⟩
    · simp only [if_neg hxm] at hxc
      exact Or.inl (hxc ▸ hx)
  · exact Or.inl h

lemma mem_of_mem_renameStep_ne {ns : List String} {m : String × String}
    {k : String} (h : k ∈ renameStep ns m) (hne : k ≠ m.2) : k ∈ ns := by
  rcases mem_renameStep h with hk | ⟨rfl, _⟩
  · exact hk
  · exact absurd rfl hne

lemma mem_renameStep_of_ne_key {ns : List String} {m : String × String}
    {x : String} (hx : x ∈ ns) (hne : x ≠ m.1) : x ∈ renameStep ns m := by
  unfold renameStep
  split
  · exact List.mem_map.2 ⟨x, hx, by simp [hne]⟩
  · exact hx

lemma mem_foldl_renameStep :
    ∀ (ms : List (String × String)) (ns : List String) (c : String),
      (∀ m1 ∈ ms, ∀ m2 ∈ ms, m1.1 ≠ m2.2) →
      c ∈ ms.foldl renameStep ns →
      c ∈ ns ∨ ∃ k, (k, c) ∈ ms ∧ k ∈ ns := by
  intro ms
  induction ms with
  | nil =>
    intro ns c _ h
    exact Or.inl h
  | cons m rest ih =>
    intro ns c hKT h
    have hKTrest : ∀ m1 ∈ rest, ∀ m2 ∈ rest, m1.1 ≠ m2.2 := fun a ha b hb =>
      hKT a (List.mem_cons_of_mem m ha) b (List.mem_cons_of_mem m hb)
    rcases ih (renameStep ns m) c hKTrest h with hc | ⟨k, hk, hkmem⟩
    · rcases mem_renameStep hc with hc1 | ⟨rfl, hm1⟩
      · exact Or.inl hc1
      · exact Or.inr ⟨m.1, List.mem_cons_self m rest, hm1⟩
    · have hknotm2 : k ≠ m.2 :=
        hKT (k, c) (List.mem_cons_of_mem m hk) m (List.mem_cons_self m rest)
      exact Or.inr ⟨k, List.mem_cons_of_mem m hk,
        mem_of_mem_renameStep_ne hkmem hknotm2⟩

/-- Claim C8. Whenever `rename_and_select` succeeds, every output column is a
canonical (essential) column, no output column is a pre-rename source name of
the mapping, and every output column genuinely comes from the input — it was
already present under its canonical name or arose by renaming a present
source column; canonical columns with no present source are absent rather
than fabricated. -/
theorem harmonizer_output_canonical (ns out : List String)
    (h : rename_and_select ns = Except.ok out) :
    ∀ c ∈ out, c ∈ essentialColumns ∧ (∀ m ∈ columnMappings, c ≠ m.1) ∧
      (c ∈ ns ∨ ∃ k, (k, c) ∈ columnMappings ∧ k ∈ ns) := by
  intro c hc
  unfold rename_and_select at h
  cases hr : renameLoop columnMappings ns with
  | error e =>
    rw [hr] at h
    cases h
  | ok final =>
    rw [hr] at h
    simp only [Except.map] at h
    cases h
    have hmem := List.mem_filter.1 hc
    have hce : c ∈ essentialColumns := hmem.1
    have hcf : c ∈ final := by
      have h2 := hmem.2
      exact List.elem_iff.mp h2
    refine ⟨hce, ?_, ?_⟩
    · exact (by decide : ∀ x ∈ essentialColumns, ∀ m ∈ columnMappings, x ≠ m.1) c hce
    · have hfinal : final = columnMappings.foldl renameStep ns :=
        renameLoop_ok columnMappings ns final hr
      exact mem_foldl_renameStep columnMappings ns c (by decide) (hfinal ▸ hcf)

/-- Column set of the integrated LPR3 frame (`cdef_cohort_generation/main.py`
step 4: kontakter defaults joined to the diagnoser columns on
`DW_EK_KONTAKT`). -/
def lpr3Cols : List String :=
  ["DW_EK_KONTAKT", "CPR", "dato_start", "dato_slut", "aktionsdiagnose",
   "diagnosekode", "diagnosetype", "senere_afkraeftet", "diagnosekode_parent",
   "diagnosetype_parent", "lprindberetningssystem"]

/-- The harmonized LPR3 column set (`record_id` has no LPR3 source and is
absent). -/
def harmonizedLpr3Cols : List String :=
  ["patient_id", "primary_diagnosis", "diagnosis", "contact_date",
   "diagnosis_type", "contact_id"]

/-- Witness for `harmonizer_output_canonical` on the integrated LPR3
schema, at the output column `patient_id` (renamed from `CPR`). -/
theorem harmonizer_output_canonical_witness :
    "patient_id" ∈ essentialColumns ∧
      (∀ m ∈ columnMappings, "patient_id" ≠ m.1) ∧
      ("patient_id" ∈ lpr3Cols ∨
        ∃ k, (k, "patient_id") ∈ columnMappings ∧ k ∈ lpr3Cols) :=
  harmonizer_output_canonical lpr3Cols harmonizedLpr3Cols (by rfl)
    "patient_id" (by decide)

/-! ## Claim C10: harmonization is not total on the integrated legacy frame -/

lemma contact_date_mem_renameStep_dind {ns : List String}
    (h : "D_INDDTO" ∈ ns) :
    "contact_date" ∈ renameStep ns ("D_INDDTO", "contact_date") := by
  unfold renameStep
  rw [if_pos h]
  exact List.mem_map.2 ⟨"D_INDDTO", h, by simp⟩

lemma renameStep_damb_not_nodup {ns : List String}
    (hcd : "contact_date" ∈ ns) (hda : "D_AMBDTO" ∈ ns) :
    ¬ (renameStep ns ("D_AMBDTO", "contact_date")).Nodup := by
  intro habs
  unfold renameStep at habs
  rw [if_pos hda] at habs
  have hinj := List.inj_on_of_nodup_map habs
  have : "D_AMBDTO" = "contact_date" := by
    refine hinj hda hcd ?_
    simp
  exact absurd this (by decide)

/-- Stepping over an early mapping entry whose key is neither `D_INDDTO` nor
`D_AMBDTO` preserves the failure of the remaining loop. -/
lemma renameLoop_err_step (m : String × String) (rest : List (String × String))
    (ns : List String)
    (H : ∀ ns2, "D_INDDTO" ∈ ns2 → "D_AMBDTO" ∈ ns2 →
      ∃ e, renameLoop rest ns2 = .error e)
    (hd1 : "D_INDDTO" ∈ ns) (hd2 : "D_AMBDTO" ∈ ns)
    (hk1 : "D_INDDTO" ≠ m.1) (hk2 : "D_AMBDTO" ≠ m.1) :
    ∃ e, renameLoop (m :: rest) ns = .error e := by
  by_cases hnd : ns.Nodup
  · have hstep : renameLoop (m :: rest) ns = renameLoop rest (renameStep ns m) := by
      simp [renameLoop, hnd]
    rw [hstep]
    exact H _ (mem_renameStep_of_ne_key hd1 hk1) (mem_renameStep_of_ne_key hd2 hk2)
  · exact ⟨"duplicate column name", by simp [renameLoop, hnd]⟩

lemma renameLoop_err_core (ns : List String)
    (hd1 : "D_INDDTO" ∈ ns) (hd2 : "D_AMBDTO" ∈ ns) :
    ∃ e, renameLoop
      [("D_INDDTO", "contact_date"), ("D_AMBDTO", "contact_date"),
       ("dato_start", "contact_date"), ("C_DIAGTYPE", "diagnosis_type"),
       ("diagnosetype", "diagnosis_type"), ("RECNUM", "record_id"),
       ("DW_EK_KONTAKT", "contact_id")] ns = .error e := by
  by_cases h1 : ns.Nodup
  case neg => exact ⟨"duplicate column name", by simp [renameLoop, h1]⟩
  case pos =>
  have hstep1 : renameLoop
      [("D_INDDTO", "contact_date"), ("D_AMBDTO", "contact_date"),
       ("dato_start", "contact_date"), ("C_DIAGTYPE", "diagnosis_type"),
       ("diagnosetype", "diagnosis_type"), ("RECNUM", "record_id"),
       ("DW_EK_KONTAKT", "contact_id")] ns
      = renameLoop
      [("D_AMBDTO", "contact_date"),
       ("dato_start", "contact_date"), ("C_DIAGTYPE", "diagnosis_type"),
       ("diagnosetype", "diagnosis_type"), ("RECNUM", "record_id"),
       ("DW_EK_KONTAKT", "contact_id")]
        (renameStep ns ("D_INDDTO", "contact_date")) := by
    simp [renameLoop, h1]
  rw [hstep1]
  set ns1 := renameStep ns ("D_INDDTO", "contact_date") with hns1
  have hcd : "contact_date" ∈ ns1 := contact_date_mem_renameStep_dind hd1
  have hda : "D_AMBDTO" ∈ ns1 :=
    mem_renameStep_of_ne_key hd2 (by decide)
  by_cases h2 : ns1.Nodup
  case neg => exact ⟨"duplicate column name", by simp [renameLoop, h2]⟩
  case pos =>
  have hstep2 : renameLoop
      [("D_AMBDTO", "contact_date"),
       ("dato_start", "contact_date"), ("C_DIAGTYPE", "diagnosis_type"),
       ("diagnosetype", "diagnosis_type"), ("RECNUM", "record_id"),
       ("DW_EK_KONTAKT", "contact_id")] ns1
      = renameLoop
      [("dato_start", "contact_date"), ("C_DIAGTYPE", "diagnosis_type"),
       ("diagnosetype", "diagnosis_type"), ("RECNUM", "record_id"),
       ("DW_EK_KONTAKT", "contact_id")]
        (renameStep ns1 ("D_AMBDTO", "contact_date")) := by
    simp [renameLoop, h2]
  rw [hstep2]
  have hdup : ¬ (renameStep ns1 ("D_AMBDTO", "contact_date")).Nodup :=
    renameStep_damb_not_nodup hcd hda
  exact ⟨"duplicate column name", by simp [renameLoop, hdup]⟩

/-- Claim C10. The harmonizer `harmonize_health_data` is not total on frames carrying both
legacy date columns: for every input schema containing both `D_INDDTO` and
`D_AMBDTO` — as the integrated legacy (LPR2) frame does, since the admission
table contributes `D_INDDTO` and the visit table `D_AMBDTO`, and the mapping
sends both to `contact_date` — the sequential rename produces two columns
named `contact_date` and `rename_and_select` fails with a duplicate-column
error instead of producing a single canonical column. -/
theorem harmonize_legacy_duplicate_contact_date (ns : List String)
    (hd1 : "D_INDDTO" ∈ ns) (hd2 : "D_AMBDTO" ∈ ns) :
    ∃ e, rename_and_select ns = Except.error e := by
  have hloop : ∃ e, renameLoop columnMappings ns = .error e := by
    refine renameLoop_err_step _ _ ns ?_ hd1 hd2 (by decide) (by decide)
    intro ns1 h1 h2
    refine renameLoop_err_step _ _ ns1 ?_ h1 h2 (by decide) (by decide)
    intro ns2 h1 h2
    refine renameLoop_err_step _ _ ns2 ?_ h1 h2 (by decide) (by decide)
    intro ns3 h1 h2
    refine renameLoop_err_step _ _ ns3 ?_ h1 h2 (by decide) (by decide)
    intro ns4 h1 h2
    refine renameLoop_err_step _ _ ns4 ?_ h1 h2 (by decide) (by decide)
    intro ns5 h1 h2
    refine renameLoop_err_step _ _ ns5 ?_ h1 h2 (by decide) (by decide)
    intro ns6 h1 h2
    exact renameLoop_err_core ns6 h1 h2
  rcases hloop with ⟨e, he⟩
  refine ⟨e, ?_⟩
  unfold rename_and_select
  rw [he]
  rfl

/-- Column set of the integrated legacy (LPR2) frame: the admission, diagnosis
and visit outputs of `cdef_cohort_builder/main.py` (`columns_to_keep`
`["PNR","C_ADIAG","RECNUM","D_INDDTO"]`, `["RECNUM","C_DIAG","C_TILDIAG"]`,
`["D_AMBDTO","RECNUM"]`) joined on `RECNUM`. -/
def lpr2Cols : List String :=
  ["PNR", "C_ADIAG", "RECNUM", "D_INDDTO", "C_DIAG", "C_TILDIAG", "D_AMBDTO"]

/-- Witness for `harmonize_legacy_duplicate_contact_date` at the integrated
legacy schema. -/
theorem harmonize_legacy_duplicate_contact_date_witness :
    ("D_INDDTO" ∈ lpr2Cols ∧ "D_AMBDTO" ∈ lpr2Cols) ∧
      ∃ e, rename_and_select lpr2Cols = Except.error e :=
  ⟨⟨by decide, by decide⟩,
   harmonize_legacy_duplicate_contact_date lpr2Cols (by decide) (by decide)⟩

/-! ## Claim C5: the cross-generation union (`pl.concat`, default vertical) -/

/-- Model of `pl.concat([df1, df2])` with the default `how="vertical"` at schema
level: succeeds only when the two schemas coincide; otherwise polars raises a
column-names-do-not-match error when the plan is resolved. -/
def concatVertical (s1 s2 : List String) : Except String (List String) :=
  if s1 = s2 then .ok s1 else .error "vertical concat: column names do not match"

/-- An integrated legacy frame carrying only admission and diagnosis columns
(no visit table), so that its harmonization succeeds. -/
def lpr2AdmDiagCols : List String :=
  ["PNR", "C_ADIAG", "RECNUM", "D_INDDTO", "C_DIAG", "C_TILDIAG"]

/-- The harmonized column set of `lpr2AdmDiagCols` (`diagnosis_type` and
`contact_id` have no source here; `record_id` comes from `RECNUM`). -/
def harmonizedLpr2Cols : List String :=
  ["patient_id", "primary_diagnosis", "diagnosis", "contact_date", "record_id"]

/-- Claim C5 (code bug). Two legitimately harmonized frames of the two register
generations populate different canonical column subsets (the legacy frame has
`record_id` but no `contact_id` or `diagnosis_type`; the current frame has
`contact_id` but no `record_id`), and the cross-generation union
`pl.concat([lpr2_harmonized, lpr3_harmonized])`
(`cdef_cohort_generation/main.py` line 76) uses the default *vertical*
concatenation, which errors on the differing schemas instead of null-filling
the missing columns. -/
theorem cross_generation_union_not_null_filled :
    rename_and_select lpr2AdmDiagCols = Except.ok harmonizedLpr2Cols ∧
    rename_and_select lpr3Cols = Except.ok harmonizedLpr3Cols ∧
    harmonizedLpr2Cols ≠ harmonizedLpr3Cols ∧
    concatVertical harmonizedLpr2Cols harmonizedLpr3Cols =
      Except.error "vertical concat: column names do not match" := by
  refine ⟨by rfl, by rfl, by decide, by rfl⟩

/-! ## Claim C4: the longitudinal merge
(`cdef_cohort_builder/utils/register.py`, `process_register_data`,
longitudinal branch, lines 60–85) -/

/-- One period file of a longitudinal register: its filename stem and its
column set. -/
structure LongFile where
  stem : String
  cols : List String
  deriving Repr, DecidableEq

/-- Modelled from the spec: `extract_date_from_filename`
(`cdef_cohort_builder/utils/date.py` is not among the provided sources).
Per the spec, filenames encode a 4-digit year — extracted here as the first
run of four digits — and, only for month-granularity registers, a 2-digit
month (not needed for the yearly scenario of the claim). -/
def extractYear : List Char → Option Nat
  | [] => none
  | a :: b :: c :: d :: rest =>
    if a.isDigit && b.isDigit && c.isDigit && d.isDigit then
      some (digitsVal [a, b, c, d])
    else extractYear (b :: c :: d :: rest)
  | _ :: rest => extractYear rest

/-- The per-file loop of the longitudinal branch, at schema level.  Note the
source reassigns the *shared* `columns_to_keep` variable to the intersection
(`columns_to_keep = [col for col in columns_to_keep if col in
existing_columns]`), so the narrowed allowlist also governs all later files;
the `pl.lit(year)` tag appends a `year` column (replacing an existing one of
that name). -/
def processLongFiles : List LongFile → Option (List String) → List (List String)
  | [], _ => []
  | f :: rest, keep =>
    let sel := match keep with
      | some c => c.filter (fun x => f.cols.contains x)
      | none => f.cols
    let keep2 : Option (List String) := match keep with
      | some _ => some sel
      | none => none
    let tagged := match extractYear f.stem.data with
      | some _ => if sel.contains "year" then sel else sel ++ ["year"]
      | none => sel
    tagged :: processLongFiles rest keep2

/-- Model of `pl.concat(data_frames)` (default vertical) over the per-period frames,
plus the empty-list guard (`ValueError` in the source). -/
def concatVerticalAll : List (List String) → Except String (List String)
  | [] => .error "no data frames were created"
  | s :: rest =>
    if rest.all (fun t => t = s) then .ok s
    else .error "vertical concat: column names do not match"

/-- The longitudinal branch of `process_register_data`: per-file column
restriction and period tagging, then vertical concatenation (the error
surfaces when the result is collected). -/
def processRegisterLongitudinal (files : List LongFile)
    (columnsToKeep : Option (List String)) : Except String (List String) :=
  concatVerticalAll (processLongFiles files columnsToKeep)

/-- Claim C4 (code bug). The schema-drift scenario — a register with columns
`[A,B,C]` in 2010 and `[A,B]` in 2011 under allowlist `[A,B,C]` — does not
produce a merged frame with a null-filled `C` for 2011: the per-file
restricted schemas (`[A,B,C,year]` vs `[A,B,year]`) differ and the default
vertical `pl.concat` errors when collected; with the files in the opposite
order the shared-allowlist narrowing drops `C` from the 2010 file as well, so
the merge succeeds but column `C` is silently absent everywhere. -/
theorem longitudinal_schema_drift_not_null_filled :
    processRegisterLongitudinal
        [⟨"register_2010", ["A", "B", "C"]⟩, ⟨"register_2011", ["A", "B"]⟩]
        (some ["A", "B", "C"]) =
      Except.error "vertical concat: column names do not match" ∧
    processRegisterLongitudinal
        [⟨"register_2011", ["A", "B"]⟩, ⟨"register_2010", ["A", "B", "C"]⟩]
        (some ["A", "B", "C"]) =
      Except.ok ["A", "B", "year"] := by
  refine ⟨by rfl, by rfl⟩

end Cdef
